import Mathlib

/-!
Shallow embedding of the almanac retrieval-and-caching subsystem of the
`cardcaptor` repository, and proofs of the frozen claims about it.

The embedded code:
  * `src/pkg/calender/calendar_api.py`  — `CalendarAPI` (endpoint resolver and
    remote fetch client),
  * `src/pkg/sqlite/sqlite.py`          — `SQLiteDB` (date-keyed cache store for
    the `day_calendar` and `hour_calendar` tables),
  * `src/agents/calander.py`            — `get_calander_info` (cache-aside
    orchestrator with a force-refresh bypass).

Modelling conventions:
  * JSON values are modelled by the inductive `JVal` (objects as association
    lists, strings, integers) — enough to express the response envelopes,
    records and Python truthiness the code branches on.
  * The network is an oracle: each HTTP interaction's outcome is a parameter
    (`Option JVal`, `none` = transport failure / non-2xx HTTP status /
    unparsable body, i.e. anything that raises before a JSON dict is in hand).
  * The stored `data` column of a cache row is modelled by `Cell`: SQL NULL,
    the empty string, well-formed JSON text encoding a value, or malformed
    (non-empty, undecodable) text.  `json.dumps` corresponds to `Cell.enc`;
    `json.loads` succeeds exactly on `Cell.enc`.
  * Store write transactions can fail in the environment (disk, locking, …);
    a `SaveFailure` parameter says whether and at which stage the exception is
    raised.  The sqlite connection context manager rolls the transaction back
    on any exception, so a failed save leaves the database unchanged.
  * Side effects that matter to the claims (network fetches, cache reads and
    writes) are recorded in an event trace.
-/

namespace Cardcaptor

/-- JSON-like values: objects (association lists of string keys), strings and
integers.  This is the fragment the embedded code inspects. -/
inductive JVal where
  | jobj (fields : List (String × JVal))
  | jstr (s : String)
  | jnum (n : Int)

/-- `dict.get k`: first binding of key `k` in an object's field list. -/
def lookupJ : List (String × JVal) → String → Option JVal
  | [], _ => none
  | (k, v) :: rest, key => if k = key then some v else lookupJ rest key

/-- Python truthiness of a JSON value: empty object, empty string and zero are
falsy, everything else is truthy. -/
def truthy : JVal → Bool
  | JVal.jobj fields => !fields.isEmpty
  | JVal.jstr s => !(s = "")
  | JVal.jnum n => !(n = 0)

/-- Python truthiness of an optional value (`None` is falsy). -/
def pyTruthy : Option JVal → Bool
  | none => false
  | some v => truthy v

/-- `data.get("code") == 200` on an object's field list. -/
def isCode200 (fields : List (String × JVal)) : Bool :=
  match lookupJ fields "code" with
  | some (JVal.jnum n) => n == 200
  | _ => false

/-- A response envelope that passes the client's success check: a JSON object
whose `code` field equals 200. -/
def ok200 : JVal → Bool
  | JVal.jobj fields => isCode200 fields
  | _ => false

/-- Replace every (non-overlapping, left-to-right) occurrence of `pat` in the
character list, with explicit fuel for termination; `Python str.replace`. -/
def replaceAllAux (pat rep : List Char) : Nat → List Char → List Char
  | _, [] => []
  | 0, s => s
  | Nat.succ n, c :: rest =>
    if List.isPrefixOf pat (c :: rest) then
      rep ++ replaceAllAux pat rep n (List.drop (pat.length - 1) rest)
    else
      c :: replaceAllAux pat rep n rest

/-- `s.replace(pat, rep)` for a non-empty pattern. -/
def replaceAll (pat rep s : List Char) : List Char :=
  replaceAllAux pat rep s.length s

/-- `s.rstrip("/")`: drop all trailing slashes. -/
def rstripSlash (s : List Char) : List Char :=
  (List.dropWhile (fun c => c = '/') s.reverse).reverse

/-- `api_url.replace("http://", "").replace("https://", "").rstrip("/")` —
how `get_optimal_api_ip` turns the discovery payload's `api` URL into the
address it memoizes. -/
def stripUrl (u : String) : String :=
  String.mk (rstripSlash (replaceAll "https://".data "".data
    (replaceAll "http://".data "".data u.data)))

/-- Observable side effects of one orchestrator call. -/
inductive Event where
  | discoveryQuery   -- GET to the discovery endpoint (`get_optimal_api_ip`)
  | fetchDay         -- GET to `/api/time/getzdday.php`
  | fetchHour        -- GET to `/api/time/getzddayh.php`
  | readDay          -- SELECT from `day_calendar`
  | readHour         -- SELECT from `hour_calendar`
  | saveDay          -- upsert into `day_calendar`
  | saveHour         -- upsert into `hour_calendar`
deriving DecidableEq, Repr

/-- The two record families ("dimensions"). -/
inductive Dim where
  | day
  | hour
deriving DecidableEq, Repr

/-- Failure of `get_optimal_api_ip` (every branch is re-wrapped by its
`except` clause into one exception; the constructors record the cause). -/
inductive ResErr where
  | transport                 -- `requests.get`/`raise_for_status`/`.json()` raised
  | notDict                   -- response JSON is not a dict: `.get` raised
  | badEnvelope (data : JVal) -- `code != 200` or no `api` field
  | badApiField (data : JVal) -- `api` field is not a string: `.replace` raised

/-- Failure of a client fetch.  `ensure_ip` runs before the fetch's own
`try` block, so a resolution failure propagates untagged; failures inside the
`try` are wrapped with a dimension-specific message. -/
inductive FetchCause where
  | transport                 -- request raised / non-2xx / unparsable body
  | notDict                   -- response JSON is not a dict
  | badEnvelope (data : JVal) -- envelope's `code` is not 200

inductive FetchErr where
  | resolution (e : ResErr)
  | fetch (d : Dim) (cause : FetchCause)

/-- `CalendarAPI` client state: the memoized address.  (The base URL and the
`id`/`key` credentials are carried into each request verbatim; they do not
influence control flow, whose outcomes the response oracles already fix.) -/
structure CalendarAPI where
  current_ip : Option String

/-- `CalendarAPI()` — a fresh client has no memoized address. -/
def mkClient : CalendarAPI := ⟨none⟩

/-- Python `not self.current_ip`: true for `None` and for the empty string. -/
def ipFalsy : Option String → Bool
  | none => true
  | some s => s = ""

/-- `CalendarAPI.get_optimal_api_ip`, with the discovery response as oracle
(`none` = transport failure).  On success it memoizes and returns the stripped
address; on any failure the memoized address is unchanged. -/
def CalendarAPI.get_optimal_api_ip (c : CalendarAPI) (resp : Option JVal) :
    CalendarAPI × Except ResErr String :=
  match resp with
  | none => (c, Except.error ResErr.transport)
  | some data =>
    match data with
    | JVal.jobj fields =>
      match lookupJ fields "api" with
      | some apiVal =>
        if isCode200 fields then
          match apiVal with
          | JVal.jstr u =>
            let ip := stripUrl u
            ({ c with current_ip := some ip }, Except.ok ip)
          | _ => (c, Except.error (ResErr.badApiField data))
        else (c, Except.error (ResErr.badEnvelope data))
      | none => (c, Except.error (ResErr.badEnvelope data))
    | _ => (c, Except.error ResErr.notDict)

/-- `CalendarAPI.ensure_ip`: resolve only if no (truthy) address is memoized.
Also reports whether a discovery query was issued. -/
def CalendarAPI.ensure_ip (c : CalendarAPI) (resp : Option JVal) :
    CalendarAPI × List Event × Except ResErr Unit :=
  if ipFalsy c.current_ip then
    match c.get_optimal_api_ip resp with
    | (c', Except.ok _) => (c', [Event.discoveryQuery], Except.ok ())
    | (c', Except.error e) => (c', [Event.discoveryQuery], Except.error e)
  else (c, [], Except.ok ())

/-- `CalendarAPI.get_day_calendar year month day`, with the discovery response
and the fetch response as oracles.  (The date parameters are carried into the
request's query string; the fetch oracle already fixes the response.)  Returns
the updated client, the trace and either the parsed envelope verbatim or the
raised error. -/
def CalendarAPI.get_day_calendar (c : CalendarAPI) (discResp resp : Option JVal) :
    CalendarAPI × List Event × Except FetchErr JVal :=
  match c.ensure_ip discResp with
  | (c', evs, Except.error e) => (c', evs, Except.error (FetchErr.resolution e))
  | (c', evs, Except.ok _) =>
    match resp with
    | none =>
      (c', evs ++ [Event.fetchDay], Except.error (FetchErr.fetch Dim.day FetchCause.transport))
    | some data =>
      match data with
      | JVal.jobj fields =>
        if isCode200 fields then (c', evs ++ [Event.fetchDay], Except.ok data)
        else
          (c', evs ++ [Event.fetchDay],
            Except.error (FetchErr.fetch Dim.day (FetchCause.badEnvelope data)))
      | _ =>
        (c', evs ++ [Event.fetchDay], Except.error (FetchErr.fetch Dim.day FetchCause.notDict))

/-- `CalendarAPI.get_hour_calendar`, the hour-dimension twin. -/
def CalendarAPI.get_hour_calendar (c : CalendarAPI) (discResp resp : Option JVal) :
    CalendarAPI × List Event × Except FetchErr JVal :=
  match c.ensure_ip discResp with
  | (c', evs, Except.error e) => (c', evs, Except.error (FetchErr.resolution e))
  | (c', evs, Except.ok _) =>
    match resp with
    | none =>
      (c', evs ++ [Event.fetchHour], Except.error (FetchErr.fetch Dim.hour FetchCause.transport))
    | some data =>
      match data with
      | JVal.jobj fields =>
        if isCode200 fields then (c', evs ++ [Event.fetchHour], Except.ok data)
        else
          (c', evs ++ [Event.fetchHour],
            Except.error (FetchErr.fetch Dim.hour (FetchCause.badEnvelope data)))
      | _ =>
        (c', evs ++ [Event.fetchHour], Except.error (FetchErr.fetch Dim.hour FetchCause.notDict))

/-- The `data` TEXT column of a cache row, partitioned by how
`json.loads(data_str) if data_str else None` treats it.  `json.dumps(record)`
always yields well-formed non-empty text, i.e. `Cell.enc record`. -/
inductive Cell where
  | null            -- SQL NULL
  | empty           -- the empty string (falsy, skips `json.loads`)
  | enc (v : JVal)  -- well-formed JSON text encoding `v`
  | malformed       -- non-empty text on which `json.loads` raises

/-- One row of `day_calendar` / `hour_calendar` (the surrogate `id` plays no
role in the embedded operations). -/
structure Row where
  data : Cell
  create_time : String
  update_time : String

/-- Database state: the two tables, keyed by the UNIQUE `date` column. -/
structure DB where
  day_calendar : List (String × Row)
  hour_calendar : List (String × Row)

/-- `SELECT ... WHERE date = ?`: the row for a date, if any. -/
def lookupRow : List (String × Row) → String → Option Row
  | [], _ => none
  | (k, r) :: rest, date => if k = date then some r else lookupRow rest date

/-- `INSERT INTO ... VALUES (date, data, now, now) ON CONFLICT(date) DO UPDATE
SET data = excluded.data, update_time = excluded.update_time`: a fresh row gets
`create_time = update_time = now`; an existing row keeps its `create_time` and
gets the new `data` and `update_time`. -/
def upsert (tbl : List (String × Row)) (date : String) (cell : Cell) (now : String) :
    List (String × Row) :=
  match tbl with
  | [] => [(date, ⟨cell, now, now⟩)]
  | (k, r) :: rest =>
    if k = date then (k, ⟨cell, r.create_time, now⟩) :: rest
    else (k, r) :: upsert rest date cell now

/-- Stage at which a store write transaction's environment failure (disk
error, lock, …) raises, if any.  Whatever the stage, the connection context
manager rolls the transaction back, the outer handler logs and returns
`False`, so all stages behave alike at the interface. -/
inductive SaveFailure where
  | selectFail     -- the existence-probe SELECT raised
  | serializeFail  -- `json.dumps` raised
  | insertFail     -- the INSERT ... ON CONFLICT raised
  | commitFail     -- `conn.commit()` raised
deriving DecidableEq, Repr

namespace SQLiteDB

/-- `SQLiteDB.get_day_calendar date`: decoded payload of the day row, else
`None`.  An absent row, a NULL or empty `data` column, and a `json.loads`
failure (caught by the blanket handler, logged, `return None`) all yield
`None`. -/
def get_day_calendar (db : DB) (date : String) : Option JVal :=
  match lookupRow db.day_calendar date with
  | none => none
  | some row =>
    match row.data with
    | Cell.null => none
    | Cell.empty => none
    | Cell.enc v => some v
    | Cell.malformed => none

/-- `SQLiteDB.get_hour_calendar date`, the hour-table twin. -/
def get_hour_calendar (db : DB) (date : String) : Option JVal :=
  match lookupRow db.hour_calendar date with
  | none => none
  | some row =>
    match row.data with
    | Cell.null => none
    | Cell.empty => none
    | Cell.enc v => some v
    | Cell.malformed => none

/-- `SQLiteDB.save_day_calendar date data`: upsert into `day_calendar` with
`now` the local timestamp.  On an environment failure at any stage the
transaction is rolled back, the exception is caught and logged, and the call
returns `False` with the database unchanged; on success it commits the upsert
and returns `True`. -/
def save_day_calendar (db : DB) (date : String) (data : JVal) (now : String)
    (fail : Option SaveFailure) : DB × Bool :=
  match fail with
  | some _ => (db, false)
  | none => ({ db with day_calendar := upsert db.day_calendar date (Cell.enc data) now }, true)

/-- `SQLiteDB.save_hour_calendar date data`, the hour-table twin. -/
def save_hour_calendar (db : DB) (date : String) (data : JVal) (now : String)
    (fail : Option SaveFailure) : DB × Bool :=
  match fail with
  | some _ => (db, false)
  | none => ({ db with hour_calendar := upsert db.hour_calendar date (Cell.enc data) now }, true)

end SQLiteDB

/-- Environment oracle for one orchestrator call: the three HTTP responses,
whether each store write transaction fails, and the local timestamps taken by
the two saves. -/
structure Env where
  discovery : Option JVal
  dayResp : Option JVal
  hourResp : Option JVal
  daySaveFail : Option SaveFailure
  hourSaveFail : Option SaveFailure
  dayNow : String
  hourNow : String

/-- `f"{month:02d}"`: zero-pad to two digits. -/
def pad2 (n : Nat) : String :=
  if n < 10 then "0" ++ toString n else toString n

/-- `f"{year}-{month:02d}-{day:02d}"` — the cache key. -/
def dateStr (year month day : Nat) : String :=
  toString year ++ "-" ++ pad2 month ++ "-" ++ pad2 day

/-- `{"day_info": ..., "hour_info": ...}` — the combined payload the
orchestrator serializes and returns (`json.dumps` is deterministic, so equal
values serialize to byte-identical strings). -/
def combined (dayInfo hourInfo : JVal) : JVal :=
  JVal.jobj [("day_info", dayInfo), ("hour_info", hourInfo)]

/-- The orchestrator's blanket handler re-raises every exception as
`Exception(f"获取数据失败: {str(e)}")`, one wrapper carrying the cause. -/
inductive OrchErr where
  | wrapped (cause : FetchErr)

/-- `if not day_info: day_info = api.get_day_calendar(...); db.save_day_calendar(...)`
— the refill step for the day dimension: keep a truthy cached value, otherwise
fetch and save (the save's Boolean result is discarded by the caller). -/
def refillDay (c : CalendarAPI) (db : DB) (date : String) (env : Env)
    (cur : Option JVal) : CalendarAPI × DB × List Event × Except FetchErr JVal :=
  match cur with
  | some v =>
    if truthy v then (c, db, [], Except.ok v)
    else
      match c.get_day_calendar env.discovery env.dayResp with
      | (c', evs, Except.error e) => (c', db, evs, Except.error e)
      | (c', evs, Except.ok fetched) =>
        let (db', _) := SQLiteDB.save_day_calendar db date fetched env.dayNow env.daySaveFail
        (c', db', evs ++ [Event.saveDay], Except.ok fetched)
  | none =>
    match c.get_day_calendar env.discovery env.dayResp with
    | (c', evs, Except.error e) => (c', db, evs, Except.error e)
    | (c', evs, Except.ok fetched) =>
      let (db', _) := SQLiteDB.save_day_calendar db date fetched env.dayNow env.daySaveFail
      (c', db', evs ++ [Event.saveDay], Except.ok fetched)

/-- `if not hour_info: ...` — the refill step for the hour dimension. -/
def refillHour (c : CalendarAPI) (db : DB) (date : String) (env : Env)
    (cur : Option JVal) : CalendarAPI × DB × List Event × Except FetchErr JVal :=
  match cur with
  | some v =>
    if truthy v then (c, db, [], Except.ok v)
    else
      match c.get_hour_calendar env.discovery env.hourResp with
      | (c', evs, Except.error e) => (c', db, evs, Except.error e)
      | (c', evs, Except.ok fetched) =>
        let (db', _) := SQLiteDB.save_hour_calendar db date fetched env.hourNow env.hourSaveFail
        (c', db', evs ++ [Event.saveHour], Except.ok fetched)
  | none =>
    match c.get_hour_calendar env.discovery env.hourResp with
    | (c', evs, Except.error e) => (c', db, evs, Except.error e)
    | (c', evs, Except.ok fetched) =>
      let (db', _) := SQLiteDB.save_hour_calendar db date fetched env.hourNow env.hourSaveFail
      (c', db', evs ++ [Event.saveHour], Except.ok fetched)

/-- `get_calander_info(year, month, day, force_refresh)` over database state
`db` and environment `env`.  Returns the database after the call, the event
trace, and either the combined payload or the wrapped exception.

Force path: fresh client, fetch day, save (result ignored), fetch hour, save
(result ignored), return the pair.  Cached path: read both tables; if both
reads are truthy return them; otherwise construct a fresh client and refill
exactly the falsy dimensions before returning the pair.  Any client exception
escapes to the blanket handler and is re-raised wrapped; the store's own
read/save handlers swallow store exceptions, so none reach the orchestrator. -/
def get_calander_info (db : DB) (year month day : Nat) (force_refresh : Bool)
    (env : Env) : DB × List Event × Except OrchErr JVal :=
  let date_str := dateStr year month day
  if force_refresh then
    match CalendarAPI.get_day_calendar mkClient env.discovery env.dayResp with
    | (_, evs, Except.error e) => (db, evs, Except.error (OrchErr.wrapped e))
    | (c1, evs1, Except.ok day_info) =>
      let (db1, _) := SQLiteDB.save_day_calendar db date_str day_info env.dayNow env.daySaveFail
      match c1.get_hour_calendar env.discovery env.hourResp with
      | (_, evs2, Except.error e) =>
        (db1, evs1 ++ [Event.saveDay] ++ evs2, Except.error (OrchErr.wrapped e))
      | (_, evs2, Except.ok hour_info) =>
        let (db2, _) :=
          SQLiteDB.save_hour_calendar db1 date_str hour_info env.hourNow env.hourSaveFail
        (db2, evs1 ++ [Event.saveDay] ++ evs2 ++ [Event.saveHour],
          Except.ok (combined day_info hour_info))
  else
    let day0 := SQLiteDB.get_day_calendar db date_str
    let hour0 := SQLiteDB.get_hour_calendar db date_str
    let evs0 := [Event.readDay, Event.readHour]
    if pyTruthy day0 && pyTruthy hour0 then
      (db, evs0,
        Except.ok (combined (day0.getD (JVal.jobj [])) (hour0.getD (JVal.jobj []))))
    else
      match refillDay mkClient db date_str env day0 with
      | (_, db1, evs1, Except.error e) =>
        (db1, evs0 ++ evs1, Except.error (OrchErr.wrapped e))
      | (c1, db1, evs1, Except.ok dayInfo) =>
        match refillHour c1 db1 date_str env hour0 with
        | (_, db2, evs2, Except.error e) =>
          (db2, evs0 ++ evs1 ++ evs2, Except.error (OrchErr.wrapped e))
        | (_, db2, evs2, Except.ok hourInfo) =>
          (db2, evs0 ++ evs1 ++ evs2, Except.ok (combined dayInfo hourInfo))

/-- A sequence of committed day-saves for one date: each list element is one
`save_day_calendar(date, payload)` call with the timestamp it observed. -/
def putsDay (db : DB) (date : String) : List (JVal × String) → DB
  | [] => db
  | (v, t) :: rest => putsDay (SQLiteDB.save_day_calendar db date v t none).1 date rest

/-- A sequence of committed hour-saves for one date. -/
def putsHour (db : DB) (date : String) : List (JVal × String) → DB
  | [] => db
  | (v, t) :: rest => putsHour (SQLiteDB.save_hour_calendar db date v t none).1 date rest

/-! ### Concrete sample data (used by witnesses and counterexamples) -/

def discFields : List (String × JVal) :=
  [("code", JVal.jnum 200), ("api", JVal.jstr "http://1.2.3.4/")]

def dayFields : List (String × JVal) :=
  [("code", JVal.jnum 200), ("yi", JVal.jstr "travel")]

def hourFields : List (String × JVal) :=
  [("code", JVal.jnum 200), ("zi", JVal.jstr "lucky")]

def discResp : JVal := JVal.jobj discFields

def dayRec : JVal := JVal.jobj dayFields

def hourRec : JVal := JVal.jobj hourFields

def emptyDB : DB := ⟨[], []⟩

/-- Cache holding only the hour row for 2025-01-01. -/
def dbHourOnly : DB :=
  ⟨[], [("2025-01-01", ⟨Cell.enc hourRec, "T0", "T0"⟩)]⟩

/-- Cache holding only the day row for 2025-01-01. -/
def dbDayOnly : DB :=
  ⟨[("2025-01-01", ⟨Cell.enc dayRec, "T0", "T0"⟩)], []⟩

/-- Cache where the day row for 2025-01-01 decodes to the empty mapping and
the hour row is well-formed. -/
def dbEmptyDayRow : DB :=
  ⟨[("2025-01-01", ⟨Cell.enc (JVal.jobj []), "T0", "T0"⟩)],
    [("2025-01-01", ⟨Cell.enc hourRec, "T0", "T0"⟩)]⟩

/-- Environment where everything succeeds. -/
def goodEnv : Env :=
  ⟨some discResp, some dayRec, some hourRec, none, none,
    "2025-01-02 08:00:00", "2025-01-02 08:00:01"⟩

/-- Environment where the fetches succeed but both store writes fail. -/
def failSaveEnv : Env :=
  ⟨some discResp, some dayRec, some hourRec,
    some SaveFailure.commitFail, some SaveFailure.insertFail, "T1", "T2"⟩

/-! ### Helper lemmas -/

/-- After an upsert, the date's row holds the new payload and `update_time`,
and its `create_time` is the pre-existing row's if there was one, else `now`. -/
theorem lookupRow_upsert_self (tbl : List (String × Row)) (date : String)
    (cell : Cell) (now : String) :
    lookupRow (upsert tbl date cell now) date =
      some ⟨cell, (match lookupRow tbl date with
                   | some r => r.create_time
                   | none => now), now⟩ := by
  induction tbl with
  | nil => simp [upsert, lookupRow]
  | cons hd tl ih =>
    obtain ⟨k, r⟩ := hd
    by_cases hk : k = date
    · simp [upsert, lookupRow, hk]
    · simp [upsert, lookupRow, hk, ih]

/-- An upsert leaves every other date's row unchanged. -/
theorem lookupRow_upsert_other (tbl : List (String × Row)) (date other : String)
    (cell : Cell) (now : String) (hne : other ≠ date) :
    lookupRow (upsert tbl date cell now) other = lookupRow tbl other := by
  induction tbl with
  | nil => simp [upsert, lookupRow, Ne.symm hne]
  | cons hd tl ih =>
    obtain ⟨k, r⟩ := hd
    by_cases hk : k = date
    · subst hk
      simp [upsert, lookupRow, Ne.symm hne]
    · simp only [upsert, if_neg hk, lookupRow]
      by_cases ho : k = other
      · simp [ho]
      · simp [ho, ih]

/-- Reading back a date right after a committed day-save yields the saved
payload. -/
theorem get_day_after_save (db : DB) (date : String) (v : JVal) (now : String) :
    SQLiteDB.get_day_calendar ((SQLiteDB.save_day_calendar db date v now none).1) date =
      some v := by
  simp [SQLiteDB.get_day_calendar, SQLiteDB.save_day_calendar, lookupRow_upsert_self]

/-- Reading back a date right after a committed hour-save yields the saved
payload. -/
theorem get_hour_after_save (db : DB) (date : String) (v : JVal) (now : String) :
    SQLiteDB.get_hour_calendar ((SQLiteDB.save_hour_calendar db date v now none).1) date =
      some v := by
  simp [SQLiteDB.get_hour_calendar, SQLiteDB.save_hour_calendar, lookupRow_upsert_self]

/-- A day-save does not touch the hour table. -/
theorem get_hour_after_save_day (db : DB) (date d2 : String) (v : JVal) (now : String)
    (fail : Option SaveFailure) :
    SQLiteDB.get_hour_calendar ((SQLiteDB.save_day_calendar db date v now fail).1) d2 =
      SQLiteDB.get_hour_calendar db d2 := by
  cases fail <;> rfl

/-- An hour-save does not touch the day table. -/
theorem get_day_after_save_hour (db : DB) (date d2 : String) (v : JVal) (now : String)
    (fail : Option SaveFailure) :
    SQLiteDB.get_day_calendar ((SQLiteDB.save_hour_calendar db date v now fail).1) d2 =
      SQLiteDB.get_day_calendar db d2 := by
  cases fail <;> rfl

/-- A record that passed the client's `code == 200` check is a non-empty
object, hence truthy in Python. -/
theorem truthy_of_isCode200 (fields : List (String × JVal))
    (h : isCode200 fields = true) : truthy (JVal.jobj fields) = true := by
  cases fields with
  | nil => simp [isCode200, lookupJ] at h
  | cons hd tl => simp [truthy]

/-- `ensure_ip` on a client holding a truthy address: no discovery query, no
state change. -/
theorem ensure_ip_cached (c : CalendarAPI) (resp : Option JVal)
    (h : ipFalsy c.current_ip = false) :
    c.ensure_ip resp = (c, [], Except.ok ()) := by
  simp [CalendarAPI.ensure_ip, h]

/-- `ensure_ip` on a fresh client with a well-formed discovery response:
one discovery query, the stripped address is memoized. -/
theorem ensure_ip_fresh_ok (dfields : List (String × JVal)) (u : String)
    (hapi : lookupJ dfields "api" = some (JVal.jstr u))
    (h200 : isCode200 dfields = true) :
    mkClient.ensure_ip (some (JVal.jobj dfields)) =
      (⟨some (stripUrl u)⟩, [Event.discoveryQuery], Except.ok ()) := by
  simp [CalendarAPI.ensure_ip, mkClient, ipFalsy, CalendarAPI.get_optimal_api_ip, hapi, h200]

/-- Day fetch on a fresh client: good discovery and a code-200 envelope give
one discovery query, one day fetch, and the envelope back verbatim. -/
theorem get_day_fresh_ok (dfields : List (String × JVal)) (u : String)
    (rfields : List (String × JVal))
    (hapi : lookupJ dfields "api" = some (JVal.jstr u))
    (h200d : isCode200 dfields = true)
    (h200 : isCode200 rfields = true) :
    CalendarAPI.get_day_calendar mkClient (some (JVal.jobj dfields))
        (some (JVal.jobj rfields)) =
      (⟨some (stripUrl u)⟩, [Event.discoveryQuery, Event.fetchDay],
        Except.ok (JVal.jobj rfields)) := by
  simp [CalendarAPI.get_day_calendar, ensure_ip_fresh_ok dfields u hapi h200d, h200]

/-- Hour fetch on a fresh client: good discovery and a code-200 envelope. -/
theorem get_hour_fresh_ok (dfields : List (String × JVal)) (u : String)
    (rfields : List (String × JVal))
    (hapi : lookupJ dfields "api" = some (JVal.jstr u))
    (h200d : isCode200 dfields = true)
    (h200 : isCode200 rfields = true) :
    CalendarAPI.get_hour_calendar mkClient (some (JVal.jobj dfields))
        (some (JVal.jobj rfields)) =
      (⟨some (stripUrl u)⟩, [Event.discoveryQuery, Event.fetchHour],
        Except.ok (JVal.jobj rfields)) := by
  simp [CalendarAPI.get_hour_calendar, ensure_ip_fresh_ok dfields u hapi h200d, h200]

/-- Day fetch on a client that already holds a truthy address: one day fetch,
no discovery query, envelope back verbatim. -/
theorem get_day_cached_ok (ip : String) (hip : ¬ ip = "") (disc : Option JVal)
    (rfields : List (String × JVal)) (h200 : isCode200 rfields = true) :
    CalendarAPI.get_day_calendar ⟨some ip⟩ disc (some (JVal.jobj rfields)) =
      (⟨some ip⟩, [Event.fetchDay], Except.ok (JVal.jobj rfields)) := by
  simp [CalendarAPI.get_day_calendar,
    ensure_ip_cached ⟨some ip⟩ disc (by simp [ipFalsy, hip]), h200]

/-- Hour fetch on a client that already holds a truthy address. -/
theorem get_hour_cached_ok (ip : String) (hip : ¬ ip = "") (disc : Option JVal)
    (rfields : List (String × JVal)) (h200 : isCode200 rfields = true) :
    CalendarAPI.get_hour_calendar ⟨some ip⟩ disc (some (JVal.jobj rfields)) =
      (⟨some ip⟩, [Event.fetchHour], Except.ok (JVal.jobj rfields)) := by
  simp [CalendarAPI.get_hour_calendar,
    ensure_ip_cached ⟨some ip⟩ disc (by simp [ipFalsy, hip]), h200]

/-- A truthy optional value is `some` of a truthy value. -/
theorem pyTruthy_some (o : Option JVal) (h : pyTruthy o = true) :
    ∃ v, o = some v ∧ truthy v = true := by
  cases o with
  | none => simp [pyTruthy] at h
  | some v => exact ⟨v, rfl, by simpa [pyTruthy] using h⟩

/-- Refill step keeps a truthy cached day value: no fetch, no write. -/
theorem refillDay_hit (c : CalendarAPI) (db : DB) (date : String) (env : Env)
    (v : JVal) (h : truthy v = true) :
    refillDay c db date env (some v) = (c, db, [], Except.ok v) := by
  simp [refillDay, h]

/-- Refill step keeps a truthy cached hour value: no fetch, no write. -/
theorem refillHour_hit (c : CalendarAPI) (db : DB) (date : String) (env : Env)
    (v : JVal) (h : truthy v = true) :
    refillHour c db date env (some v) = (c, db, [], Except.ok v) := by
  simp [refillHour, h]

/-- Refill of a missing/falsy day value on a fresh client under a good
environment: one discovery query, one day fetch, one committed day save. -/
theorem refillDay_miss_fresh_ok (db : DB) (date : String) (env : Env)
    (cur : Option JVal) (dfields : List (String × JVal)) (u : String)
    (rd : List (String × JVal))
    (hmiss : pyTruthy cur = false)
    (hdisc : env.discovery = some (JVal.jobj dfields))
    (hapi : lookupJ dfields "api" = some (JVal.jstr u))
    (h200d : isCode200 dfields = true)
    (hday : env.dayResp = some (JVal.jobj rd))
    (h200day : isCode200 rd = true)
    (hsd : env.daySaveFail = none) :
    refillDay mkClient db date env cur =
      (⟨some (stripUrl u)⟩,
        (SQLiteDB.save_day_calendar db date (JVal.jobj rd) env.dayNow none).1,
        [Event.discoveryQuery, Event.fetchDay, Event.saveDay],
        Except.ok (JVal.jobj rd)) := by
  have hfd := get_day_fresh_ok dfields u rd hapi h200d h200day
  cases cur with
  | none => simp [refillDay, hdisc, hday, hfd, hsd]
  | some v =>
    have hv : truthy v = false := by simpa [pyTruthy] using hmiss
    simp [refillDay, hv, hdisc, hday, hfd, hsd]

/-- Refill of a missing/falsy hour value on a fresh client (the day dimension
was a cache hit) under a good environment: one discovery query, one hour
fetch, one committed hour save. -/
theorem refillHour_miss_fresh_ok (db : DB) (date : String) (env : Env)
    (cur : Option JVal) (dfields : List (String × JVal)) (u : String)
    (rh : List (String × JVal))
    (hmiss : pyTruthy cur = false)
    (hdisc : env.discovery = some (JVal.jobj dfields))
    (hapi : lookupJ dfields "api" = some (JVal.jstr u))
    (h200d : isCode200 dfields = true)
    (hhour : env.hourResp = some (JVal.jobj rh))
    (h200hour : isCode200 rh = true)
    (hsh : env.hourSaveFail = none) :
    refillHour mkClient db date env cur =
      (⟨some (stripUrl u)⟩,
        (SQLiteDB.save_hour_calendar db date (JVal.jobj rh) env.hourNow none).1,
        [Event.discoveryQuery, Event.fetchHour, Event.saveHour],
        Except.ok (JVal.jobj rh)) := by
  have hfh := get_hour_fresh_ok dfields u rh hapi h200d h200hour
  cases cur with
  | none => simp [refillHour, hdisc, hhour, hfh, hsh]
  | some v =>
    have hv : truthy v = false := by simpa [pyTruthy] using hmiss
    simp [refillHour, hv, hdisc, hhour, hfh, hsh]

/-- Refill of a missing/falsy hour value when the client already memoized a
truthy address (the day dimension was just fetched): one hour fetch, no
discovery query, one committed hour save. -/
theorem refillHour_miss_cached_ok (db : DB) (date : String) (env : Env)
    (cur : Option JVal) (ip : String) (rh : List (String × JVal))
    (hmiss : pyTruthy cur = false)
    (hip : ¬ ip = "")
    (hhour : env.hourResp = some (JVal.jobj rh))
    (h200hour : isCode200 rh = true)
    (hsh : env.hourSaveFail = none) :
    refillHour ⟨some ip⟩ db date env cur =
      (⟨some ip⟩,
        (SQLiteDB.save_hour_calendar db date (JVal.jobj rh) env.hourNow none).1,
        [Event.fetchHour, Event.saveHour],
        Except.ok (JVal.jobj rh)) := by
  have hfh := get_hour_cached_ok ip hip env.discovery rh h200hour
  cases cur with
  | none => simp [refillHour, hhour, hfh, hsh]
  | some v =>
    have hv : truthy v = false := by simpa [pyTruthy] using hmiss
    simp [refillHour, hv, hhour, hfh, hsh]

/-- A non-forced call on a state where both reads are truthy is a pure cache
hit: no network, no write, state unchanged, the two cached values returned. -/
theorem hit_call (db : DB) (year month day : Nat) (env : Env)
    (hd : pyTruthy (SQLiteDB.get_day_calendar db (dateStr year month day)) = true)
    (hh : pyTruthy (SQLiteDB.get_hour_calendar db (dateStr year month day)) = true) :
    get_calander_info db year month day false env =
      (db, [Event.readDay, Event.readHour],
        Except.ok (combined
          ((SQLiteDB.get_day_calendar db (dateStr year month day)).getD (JVal.jobj []))
          ((SQLiteDB.get_hour_calendar db (dateStr year month day)).getD (JVal.jobj [])))) := by
  simp [get_calander_info, hd, hh]

/-- `create_time` survives any sequence of committed day-saves for the date. -/
theorem putsDay_create_time (ps : List (JVal × String)) :
    ∀ (db : DB) (date : String) (r : Row),
      lookupRow db.day_calendar date = some r →
      ∃ r', lookupRow (putsDay db date ps).day_calendar date = some r' ∧
        r'.create_time = r.create_time := by
  induction ps with
  | nil => exact fun db date r h => ⟨r, h, rfl⟩
  | cons hd tl ih =>
    intro db date r h
    obtain ⟨v, t⟩ := hd
    have hstep :
        lookupRow ((SQLiteDB.save_day_calendar db date v t none).1).day_calendar date =
          some ⟨Cell.enc v, r.create_time, t⟩ := by
      simp [SQLiteDB.save_day_calendar, lookupRow_upsert_self, h]
    obtain ⟨r', hr', hct⟩ := ih _ date _ hstep
    exact ⟨r', hr', hct⟩

/-- `create_time` survives any sequence of committed hour-saves for the date. -/
theorem putsHour_create_time (ps : List (JVal × String)) :
    ∀ (db : DB) (date : String) (r : Row),
      lookupRow db.hour_calendar date = some r →
      ∃ r', lookupRow (putsHour db date ps).hour_calendar date = some r' ∧
        r'.create_time = r.create_time := by
  induction ps with
  | nil => exact fun db date r h => ⟨r, h, rfl⟩
  | cons hd tl ih =>
    intro db date r h
    obtain ⟨v, t⟩ := hd
    have hstep :
        lookupRow ((SQLiteDB.save_hour_calendar db date v t none).1).hour_calendar date =
          some ⟨Cell.enc v, r.create_time, t⟩ := by
      simp [SQLiteDB.save_hour_calendar, lookupRow_upsert_self, h]
    obtain ⟨r', hr', hct⟩ := ih _ date _ hstep
    exact ⟨r', hr', hct⟩

/-! ### Claims -/

/-- C9: the store's save operations are total at their interface: they are
plain functions into `DB × Bool` (no exception escapes), an environment
failure at any stage rolls the transaction back and yields `False` with the
database unchanged, and they return `True` exactly when the upsert
transaction commits (`fail = none`). -/
theorem C9_save_total (db : DB) (date : String) (v : JVal) (now : String)
    (fail : Option SaveFailure) :
    ((SQLiteDB.save_day_calendar db date v now fail).2 = true ↔ fail = none) ∧
    ((SQLiteDB.save_hour_calendar db date v now fail).2 = true ↔ fail = none) ∧
    (fail ≠ none → SQLiteDB.save_day_calendar db date v now fail = (db, false)) ∧
    (fail ≠ none → SQLiteDB.save_hour_calendar db date v now fail = (db, false)) := by
  cases fail <;>
    simp [SQLiteDB.save_day_calendar, SQLiteDB.save_hour_calendar]

/-- Witness for C9 at a concrete failing save: `False` and no state change. -/
theorem C9_save_total_witness :
    SQLiteDB.save_day_calendar emptyDB "2025-01-01" dayRec "T"
        (some SaveFailure.commitFail) = (emptyDB, false) ∧
    SQLiteDB.save_hour_calendar emptyDB "2025-01-01" hourRec "T"
        (some SaveFailure.insertFail) = (emptyDB, false) :=
  ⟨(C9_save_total emptyDB "2025-01-01" dayRec "T" (some SaveFailure.commitFail)).2.2.1
      (by decide),
   (C9_save_total emptyDB "2025-01-01" hourRec "T" (some SaveFailure.insertFail)).2.2.2
      (by decide)⟩

/-- C3: in both families, the first committed put for a date inserts a row
with `create_time = update_time = now`; every subsequent committed put
overwrites only the payload and `update_time`, keeping `create_time`; and
across any sequence of committed puts after the first, `create_time` stays
exactly the first insert's timestamp. -/
theorem C3_upsert_preserves_create_time :
    (∀ (db : DB) (date : String) (v : JVal) (t : String),
      lookupRow db.day_calendar date = none →
      lookupRow ((SQLiteDB.save_day_calendar db date v t none).1).day_calendar date =
        some ⟨Cell.enc v, t, t⟩) ∧
    (∀ (db : DB) (date : String) (r : Row) (v : JVal) (t : String),
      lookupRow db.day_calendar date = some r →
      lookupRow ((SQLiteDB.save_day_calendar db date v t none).1).day_calendar date =
        some ⟨Cell.enc v, r.create_time, t⟩) ∧
    (∀ (db : DB) (date : String) (v : JVal) (t : String) (ps : List (JVal × String)),
      lookupRow db.day_calendar date = none →
      (lookupRow (putsDay db date ((v, t) :: ps)).day_calendar date).map
          Row.create_time = some t) ∧
    (∀ (db : DB) (date : String) (v : JVal) (t : String),
      lookupRow db.hour_calendar date = none →
      lookupRow ((SQLiteDB.save_hour_calendar db date v t none).1).hour_calendar date =
        some ⟨Cell.enc v, t, t⟩) ∧
    (∀ (db : DB) (date : String) (r : Row) (v : JVal) (t : String),
      lookupRow db.hour_calendar date = some r →
      lookupRow ((SQLiteDB.save_hour_calendar db date v t none).1).hour_calendar date =
        some ⟨Cell.enc v, r.create_time, t⟩) ∧
    (∀ (db : DB) (date : String) (v : JVal) (t : String) (ps : List (JVal × String)),
      lookupRow db.hour_calendar date = none →
      (lookupRow (putsHour db date ((v, t) :: ps)).hour_calendar date).map
          Row.create_time = some t) := by
  refine ⟨?_, ?_, ?_, ?_, ?_, ?_⟩
  · intro db date v t h
    simp [SQLiteDB.save_day_calendar, lookupRow_upsert_self, h]
  · intro db date r v t h
    simp [SQLiteDB.save_day_calendar, lookupRow_upsert_self, h]
  · intro db date v t ps h
    have hfirst :
        lookupRow ((SQLiteDB.save_day_calendar db date v t none).1).day_calendar date =
          some ⟨Cell.enc v, t, t⟩ := by
      simp [SQLiteDB.save_day_calendar, lookupRow_upsert_self, h]
    obtain ⟨r', hr', hct⟩ := putsDay_create_time ps _ date _ hfirst
    simp [putsDay, hr', hct]
  · intro db date v t h
    simp [SQLiteDB.save_hour_calendar, lookupRow_upsert_self, h]
  · intro db date r v t h
    simp [SQLiteDB.save_hour_calendar, lookupRow_upsert_self, h]
  · intro db date v t ps h
    have hfirst :
        lookupRow ((SQLiteDB.save_hour_calendar db date v t none).1).hour_calendar date =
          some ⟨Cell.enc v, t, t⟩ := by
      simp [SQLiteDB.save_hour_calendar, lookupRow_upsert_self, h]
    obtain ⟨r', hr', hct⟩ := putsHour_create_time ps _ date _ hfirst
    simp [putsHour, hr', hct]

/-- Witness for C3: first insert at `T1`, two further puts at `T2`, `T3`;
`create_time` is still `T1`. -/
theorem C3_upsert_preserves_create_time_witness :
    (lookupRow (putsDay emptyDB "2025-01-01"
        [(dayRec, "T1"), (hourRec, "T2"), (dayRec, "T3")]).day_calendar
      "2025-01-01").map Row.create_time = some "T1" :=
  C3_upsert_preserves_create_time.2.2.1 emptyDB "2025-01-01" dayRec "T1"
    [(hourRec, "T2"), (dayRec, "T3")] rfl

/-- C2 counterexample: a date whose stored day text is malformed is reported
by `get` exactly like an absent row — `None` in both code paths, with no
distinct decode error (the `except` handler logs and returns `None`). -/
theorem C2_counterexample :
    SQLiteDB.get_day_calendar ⟨[("2025-01-01", ⟨Cell.malformed, "T0", "T0"⟩)], []⟩
        "2025-01-01" = none ∧
    SQLiteDB.get_day_calendar emptyDB "2025-01-01" = none ∧
    SQLiteDB.get_hour_calendar ⟨[], [("2025-01-01", ⟨Cell.malformed, "T0", "T0"⟩)]⟩
        "2025-01-01" = none ∧
    SQLiteDB.get_hour_calendar emptyDB "2025-01-01" = none :=
  ⟨rfl, rfl, rfl, rfl⟩

/-- C2 amended: `get` returns the decoded payload for a well-formed stored
text, and `None` both when no row exists and when the stored text is
malformed — a decode failure is caught and reported as absence, not as a
distinct error. -/
theorem C2_amended_get_outcomes :
    (∀ (db : DB) (date : String) (v : JVal) (ct ut : String),
      lookupRow db.day_calendar date = some ⟨Cell.enc v, ct, ut⟩ →
      SQLiteDB.get_day_calendar db date = some v) ∧
    (∀ (db : DB) (date : String),
      lookupRow db.day_calendar date = none →
      SQLiteDB.get_day_calendar db date = none) ∧
    (∀ (db : DB) (date : String) (ct ut : String),
      lookupRow db.day_calendar date = some ⟨Cell.malformed, ct, ut⟩ →
      SQLiteDB.get_day_calendar db date = none) ∧
    (∀ (db : DB) (date : String) (v : JVal) (ct ut : String),
      lookupRow db.hour_calendar date = some ⟨Cell.enc v, ct, ut⟩ →
      SQLiteDB.get_hour_calendar db date = some v) ∧
    (∀ (db : DB) (date : String),
      lookupRow db.hour_calendar date = none →
      SQLiteDB.get_hour_calendar db date = none) ∧
    (∀ (db : DB) (date : String) (ct ut : String),
      lookupRow db.hour_calendar date = some ⟨Cell.malformed, ct, ut⟩ →
      SQLiteDB.get_hour_calendar db date = none) := by
  refine ⟨?_, ?_, ?_, ?_, ?_, ?_⟩ <;> intro db date <;>
    first
      | (intro v ct ut h; simp [SQLiteDB.get_day_calendar, SQLiteDB.get_hour_calendar, h])
      | (intro h; simp [SQLiteDB.get_day_calendar, SQLiteDB.get_hour_calendar, h])
      | (intro ct ut h; simp [SQLiteDB.get_day_calendar, SQLiteDB.get_hour_calendar, h])

/-- Witness for C2 amended at a concrete database. -/
theorem C2_amended_get_outcomes_witness :
    SQLiteDB.get_day_calendar ⟨[("2025-01-02", ⟨Cell.enc dayRec, "T0", "T0"⟩)], []⟩
        "2025-01-02" = some dayRec ∧
    SQLiteDB.get_hour_calendar ⟨[], [("2025-01-02", ⟨Cell.enc hourRec, "T0", "T0"⟩)]⟩
        "2025-01-02" = some hourRec :=
  ⟨C2_amended_get_outcomes.1 _ "2025-01-02" dayRec "T0" "T0" rfl,
   C2_amended_get_outcomes.2.2.2.1 _ "2025-01-02" hourRec "T0" "T0" rfl⟩

/-- C7: with a resolved address in hand, each client fetch returns the parsed
envelope verbatim when its `code` equals 200, succeeds only in that case, and
otherwise fails with an error tagged with its own dimension and carrying the
cause — for the day fetch and the hour fetch alike. -/
theorem C7_client_fetch_envelope (ip : String) (hip : ip ≠ "")
    (disc resp : Option JVal) :
    ((∀ data, resp = some data → ok200 data = true →
        (CalendarAPI.get_day_calendar ⟨some ip⟩ disc resp).2.2 = Except.ok data) ∧
     ((∃ v, (CalendarAPI.get_day_calendar ⟨some ip⟩ disc resp).2.2 = Except.ok v) ↔
        (∃ data, resp = some data ∧ ok200 data = true)) ∧
     (∀ e, (CalendarAPI.get_day_calendar ⟨some ip⟩ disc resp).2.2 = Except.error e →
        ∃ cause, e = FetchErr.fetch Dim.day cause)) ∧
    ((∀ data, resp = some data → ok200 data = true →
        (CalendarAPI.get_hour_calendar ⟨some ip⟩ disc resp).2.2 = Except.ok data) ∧
     ((∃ v, (CalendarAPI.get_hour_calendar ⟨some ip⟩ disc resp).2.2 = Except.ok v) ↔
        (∃ data, resp = some data ∧ ok200 data = true)) ∧
     (∀ e, (CalendarAPI.get_hour_calendar ⟨some ip⟩ disc resp).2.2 = Except.error e →
        ∃ cause, e = FetchErr.fetch Dim.hour cause)) := by
  have hcached := ensure_ip_cached ⟨some ip⟩ disc (by simp [ipFalsy, hip])
  constructor
  · refine ⟨?_, ?_, ?_⟩
    · rintro data rfl hok
      cases data with
      | jobj fields =>
        have h200 : isCode200 fields = true := by simpa [ok200] using hok
        simp [CalendarAPI.get_day_calendar, hcached, h200]
      | jstr s => simp [ok200] at hok
      | jnum n => simp [ok200] at hok
    · constructor
      · rintro ⟨v, hv⟩
        cases resp with
        | none => simp [CalendarAPI.get_day_calendar, hcached] at hv
        | some data =>
          cases data with
          | jobj fields =>
            by_cases h200 : isCode200 fields
            · exact ⟨JVal.jobj fields, rfl, by simpa [ok200] using h200⟩
            · simp [CalendarAPI.get_day_calendar, hcached, h200] at hv
          | jstr s => simp [CalendarAPI.get_day_calendar, hcached] at hv
          | jnum n => simp [CalendarAPI.get_day_calendar, hcached] at hv
      · rintro ⟨data, rfl, hok⟩
        cases data with
        | jobj fields =>
          have h200 : isCode200 fields = true := by simpa [ok200] using hok
          exact ⟨JVal.jobj fields, by
            simp [CalendarAPI.get_day_calendar, hcached, h200]⟩
        | jstr s => simp [ok200] at hok
        | jnum n => simp [ok200] at hok
    · intro e he
      cases resp with
      | none =>
        simp [CalendarAPI.get_day_calendar, hcached] at he
        exact ⟨FetchCause.transport, he.symm⟩
      | some data =>
        cases data with
        | jobj fields =>
          by_cases h200 : isCode200 fields
          · simp [CalendarAPI.get_day_calendar, hcached, h200] at he
          · simp [CalendarAPI.get_day_calendar, hcached, h200] at he
            exact ⟨FetchCause.badEnvelope (JVal.jobj fields), he.symm⟩
        | jstr s =>
          simp [CalendarAPI.get_day_calendar, hcached] at he
          exact ⟨FetchCause.notDict, he.symm⟩
        | jnum n =>
          simp [CalendarAPI.get_day_calendar, hcached] at he
          exact ⟨FetchCause.notDict, he.symm⟩
  · refine ⟨?_, ?_, ?_⟩
    · rintro data rfl hok
      cases data with
      | jobj fields =>
        have h200 : isCode200 fields = true := by simpa [ok200] using hok
        simp [CalendarAPI.get_hour_calendar, hcached, h200]
      | jstr s => simp [ok200] at hok
      | jnum n => simp [ok200] at hok
    · constructor
      · rintro ⟨v, hv⟩
        cases resp with
        | none => simp [CalendarAPI.get_hour_calendar, hcached] at hv
        | some data =>
          cases data with
          | jobj fields =>
            by_cases h200 : isCode200 fields
            · exact ⟨JVal.jobj fields, rfl, by simpa [ok200] using h200⟩
            · simp [CalendarAPI.get_hour_calendar, hcached, h200] at hv
          | jstr s => simp [CalendarAPI.get_hour_calendar, hcached] at hv
          | jnum n => simp [CalendarAPI.get_hour_calendar, hcached] at hv
      · rintro ⟨data, rfl, hok⟩
        cases data with
        | jobj fields =>
          have h200 : isCode200 fields = true := by simpa [ok200] using hok
          exact ⟨JVal.jobj fields, by
            simp [CalendarAPI.get_hour_calendar, hcached, h200]⟩
        | jstr s => simp [ok200] at hok
        | jnum n => simp [ok200] at hok
    · intro e he
      cases resp with
      | none =>
        simp [CalendarAPI.get_hour_calendar, hcached] at he
        exact ⟨FetchCause.transport, he.symm⟩
      | some data =>
        cases data with
        | jobj fields =>
          by_cases h200 : isCode200 fields
          · simp [CalendarAPI.get_hour_calendar, hcached, h200] at he
          · simp [CalendarAPI.get_hour_calendar, hcached, h200] at he
            exact ⟨FetchCause.badEnvelope (JVal.jobj fields), he.symm⟩
        | jstr s =>
          simp [CalendarAPI.get_hour_calendar, hcached] at he
          exact ⟨FetchCause.notDict, he.symm⟩
        | jnum n =>
          simp [CalendarAPI.get_hour_calendar, hcached] at he
          exact ⟨FetchCause.notDict, he.symm⟩

/-- Witness for C7 at concrete envelopes: code-200 body returned verbatim. -/
theorem C7_client_fetch_envelope_witness :
    (CalendarAPI.get_day_calendar ⟨some "1.2.3.4"⟩ none (some dayRec)).2.2 =
      Except.ok dayRec ∧
    (CalendarAPI.get_hour_calendar ⟨some "1.2.3.4"⟩ none (some hourRec)).2.2 =
      Except.ok hourRec :=
  ⟨(C7_client_fetch_envelope "1.2.3.4" (by decide) none (some dayRec)).1.1 dayRec rfl
      (by decide),
   (C7_client_fetch_envelope "1.2.3.4" (by decide) none (some hourRec)).2.1 hourRec rfl
      (by decide)⟩

/-- C8 counterexample: a discovery payload whose `api` URL is bare
`"http://"` resolves *successfully* to the empty address; it is stored, yet
the next `ensure_ip` still issues a discovery query because the memoized
address is falsy — so one successful resolution does not guarantee later
`ensure` calls skip the network. -/
theorem C8_counterexample :
    (mkClient.get_optimal_api_ip
        (some (JVal.jobj [("code", JVal.jnum 200), ("api", JVal.jstr "http://")]))).2 =
      Except.ok "" ∧
    (mkClient.get_optimal_api_ip
        (some (JVal.jobj [("code", JVal.jnum 200), ("api", JVal.jstr "http://")]))).1.current_ip =
      some "" ∧
    ((mkClient.get_optimal_api_ip
        (some (JVal.jobj [("code", JVal.jnum 200), ("api", JVal.jstr "http://")]))).1.ensure_ip
        none).2.1 = [Event.discoveryQuery] :=
  ⟨rfl, rfl, rfl⟩

/-- C8 amended: `ensure_ip` re-queries only while the memoized address is
falsy (`None` or empty); once a resolution succeeds with a non-empty address,
that address is stored and every later `ensure_ip` on the same instance
returns at once, without a discovery query and without touching the stored
address. -/
theorem C8_amended_ensure_memoized :
    (∀ (c : CalendarAPI) (resp : Option JVal), ipFalsy c.current_ip = false →
      c.ensure_ip resp = (c, [], Except.ok ())) ∧
    (∀ (c : CalendarAPI) (resp : Option JVal) (c' : CalendarAPI) (ip : String),
      c.get_optimal_api_ip resp = (c', Except.ok ip) → ip ≠ "" →
      c'.current_ip = some ip ∧
        ∀ resp2, c'.ensure_ip resp2 = (c', [], Except.ok ())) := by
  constructor
  · exact ensure_ip_cached
  · intro c resp c' ip h hip
    have hcur : c'.current_ip = some ip := by
      cases resp with
      | none => simp [CalendarAPI.get_optimal_api_ip] at h
      | some data =>
        cases data with
        | jobj fields =>
          cases hapi : lookupJ fields "api" with
          | none => simp [CalendarAPI.get_optimal_api_ip, hapi] at h
          | some apiVal =>
            by_cases h200 : isCode200 fields
            · cases apiVal with
              | jstr u =>
                simp [CalendarAPI.get_optimal_api_ip, hapi, h200] at h
                obtain ⟨hc, hi⟩ := h
                subst hc
                simp [hi]
              | jobj g => simp [CalendarAPI.get_optimal_api_ip, hapi, h200] at h
              | jnum n => simp [CalendarAPI.get_optimal_api_ip, hapi, h200] at h
            · simp [CalendarAPI.get_optimal_api_ip, hapi, h200] at h
        | jstr s => simp [CalendarAPI.get_optimal_api_ip] at h
        | jnum n => simp [CalendarAPI.get_optimal_api_ip] at h
    exact ⟨hcur, fun resp2 => ensure_ip_cached c' resp2 (by simp [ipFalsy, hcur, hip])⟩

/-- Witness for C8 amended: a memoized client skips the network, and a client
that just resolved `1.2.3.4` skips it on the next `ensure_ip`. -/
theorem C8_amended_ensure_memoized_witness :
    CalendarAPI.ensure_ip ⟨some "9.9.9.9"⟩ none = (⟨some "9.9.9.9"⟩, [], Except.ok ()) ∧
    CalendarAPI.ensure_ip ⟨some "1.2.3.4"⟩ (some discResp) =
      (⟨some "1.2.3.4"⟩, [], Except.ok ()) :=
  ⟨C8_amended_ensure_memoized.1 ⟨some "9.9.9.9"⟩ none (by decide),
   (C8_amended_ensure_memoized.2 mkClient (some discResp) ⟨some "1.2.3.4"⟩ "1.2.3.4"
      rfl (by decide)).2 (some discResp)⟩

/-- C4: with `forceRefresh = true` and a well-behaved environment, the call
performs no cache read, resolves once, fetches day and hour exactly once each
(day first), writes the day record then the hour record, returns the freshly
fetched pair, and afterwards both cache reads for that date return the new
payloads — whatever the prior cache state. -/
theorem C4_force_refresh (db : DB) (year month day : Nat) (env : Env)
    (dfields : List (String × JVal)) (u : String)
    (rd rh : List (String × JVal))
    (hdisc : env.discovery = some (JVal.jobj dfields))
    (hapi : lookupJ dfields "api" = some (JVal.jstr u))
    (h200d : isCode200 dfields = true)
    (hip : stripUrl u ≠ "")
    (hday : env.dayResp = some (JVal.jobj rd))
    (h200day : isCode200 rd = true)
    (hhour : env.hourResp = some (JVal.jobj rh))
    (h200hour : isCode200 rh = true)
    (hsd : env.daySaveFail = none)
    (hsh : env.hourSaveFail = none) :
    (get_calander_info db year month day true env).2.1 =
      [Event.discoveryQuery, Event.fetchDay, Event.saveDay,
        Event.fetchHour, Event.saveHour] ∧
    (get_calander_info db year month day true env).2.2 =
      Except.ok (combined (JVal.jobj rd) (JVal.jobj rh)) ∧
    SQLiteDB.get_day_calendar (get_calander_info db year month day true env).1
        (dateStr year month day) = some (JVal.jobj rd) ∧
    SQLiteDB.get_hour_calendar (get_calander_info db year month day true env).1
        (dateStr year month day) = some (JVal.jobj rh) := by
  have hfd := get_day_fresh_ok dfields u rd hapi h200d h200day
  have hfh := get_hour_cached_ok (stripUrl u) hip (some (JVal.jobj dfields)) rh h200hour
  have hcall : get_calander_info db year month day true env =
      ((SQLiteDB.save_hour_calendar
          (SQLiteDB.save_day_calendar db (dateStr year month day) (JVal.jobj rd)
            env.dayNow none).1
          (dateStr year month day) (JVal.jobj rh) env.hourNow none).1,
        [Event.discoveryQuery, Event.fetchDay, Event.saveDay,
          Event.fetchHour, Event.saveHour],
        Except.ok (combined (JVal.jobj rd) (JVal.jobj rh))) := by
    simp [get_calander_info, hdisc, hday, hhour, hsd, hsh, hfd, hfh]
  refine ⟨by simp [hcall], by simp [hcall], ?_, ?_⟩
  · rw [hcall]
    rw [get_day_after_save_hour]
    exact get_day_after_save _ _ _ _
  · rw [hcall]
    exact get_hour_after_save _ _ _ _

/-- Witness for C4 on an empty cache with the sample environment. -/
theorem C4_force_refresh_witness :
    (get_calander_info emptyDB 2025 1 1 true goodEnv).2.1 =
      [Event.discoveryQuery, Event.fetchDay, Event.saveDay,
        Event.fetchHour, Event.saveHour] ∧
    (get_calander_info emptyDB 2025 1 1 true goodEnv).2.2 =
      Except.ok (combined dayRec hourRec) ∧
    SQLiteDB.get_day_calendar (get_calander_info emptyDB 2025 1 1 true goodEnv).1
        (dateStr 2025 1 1) = some dayRec ∧
    SQLiteDB.get_hour_calendar (get_calander_info emptyDB 2025 1 1 true goodEnv).1
        (dateStr 2025 1 1) = some hourRec :=
  C4_force_refresh emptyDB 2025 1 1 goodEnv discFields "http://1.2.3.4/"
    dayFields hourFields rfl rfl rfl (by decide) rfl rfl rfl rfl rfl rfl

/-- C1 counterexample: with both fetches succeeding but both store write
transactions failing, `get_calander_info` still returns the complete fetched
pair — the cache-write failure is silently swallowed (each save returned
`False` and was rolled back, leaving the cache empty), not propagated as an
error as the claim requires. -/
theorem C1_counterexample :
    (get_calander_info emptyDB 2025 1 1 true failSaveEnv).2.2 =
      Except.ok (combined dayRec hourRec) ∧
    (get_calander_info emptyDB 2025 1 1 true failSaveEnv).1 = emptyDB ∧
    (SQLiteDB.save_day_calendar emptyDB (dateStr 2025 1 1) dayRec "T1"
        failSaveEnv.daySaveFail).2 = false :=
  ⟨rfl, rfl, rfl⟩

/-- C1 amended: every call returns either a wrapped error or a complete
day+hour pair (never a partial result); endpoint-resolution and fetch
failures propagate as the single wrapper carrying the original cause; but a
store (cache-write) failure is silently swallowed — with good fetches the
call returns the complete fetched pair regardless of the save outcomes. -/
theorem C1_amended_error_policy :
    (∀ (db : DB) (year month day : Nat) (force : Bool) (env : Env),
      (∃ e, (get_calander_info db year month day force env).2.2 =
        Except.error (OrchErr.wrapped e)) ∨
      (∃ d h, (get_calander_info db year month day force env).2.2 =
        Except.ok (combined d h))) ∧
    (∀ (db : DB) (year month day : Nat) (env : Env)
        (dfields : List (String × JVal)) (u : String),
      env.discovery = some (JVal.jobj dfields) →
      lookupJ dfields "api" = some (JVal.jstr u) →
      isCode200 dfields = true →
      env.dayResp = none →
      (get_calander_info db year month day true env).2.2 =
        Except.error (OrchErr.wrapped (FetchErr.fetch Dim.day FetchCause.transport))) ∧
    (∀ (db : DB) (year month day : Nat) (env : Env)
        (dfields : List (String × JVal)) (u : String) (rd rh : List (String × JVal)),
      env.discovery = some (JVal.jobj dfields) →
      lookupJ dfields "api" = some (JVal.jstr u) →
      isCode200 dfields = true →
      stripUrl u ≠ "" →
      env.dayResp = some (JVal.jobj rd) →
      isCode200 rd = true →
      env.hourResp = some (JVal.jobj rh) →
      isCode200 rh = true →
      (get_calander_info db year month day true env).2.2 =
        Except.ok (combined (JVal.jobj rd) (JVal.jobj rh))) := by
  refine ⟨?_, ?_, ?_⟩
  · intro db year month day force env
    cases force with
    | true =>
      rcases hfd : CalendarAPI.get_day_calendar mkClient env.discovery env.dayResp with
        ⟨c1, evs1, r1⟩
      cases r1 with
      | error e => exact Or.inl ⟨e, by simp [get_calander_info, hfd]⟩
      | ok dayv =>
        rcases hfh : c1.get_hour_calendar env.discovery env.hourResp with ⟨c2, evs2, r2⟩
        cases r2 with
        | error e => exact Or.inl ⟨e, by simp [get_calander_info, hfd, hfh]⟩
        | ok hourv => exact Or.inr ⟨dayv, hourv, by simp [get_calander_info, hfd, hfh]⟩
    | false =>
      cases hhit : (pyTruthy (SQLiteDB.get_day_calendar db (dateStr year month day)) &&
          pyTruthy (SQLiteDB.get_hour_calendar db (dateStr year month day))) with
      | true =>
        exact Or.inr
          ⟨(SQLiteDB.get_day_calendar db (dateStr year month day)).getD (JVal.jobj []),
           (SQLiteDB.get_hour_calendar db (dateStr year month day)).getD (JVal.jobj []),
           by simp [get_calander_info, hhit]⟩
      | false =>
        rcases hrd : refillDay mkClient db (dateStr year month day) env
            (SQLiteDB.get_day_calendar db (dateStr year month day)) with ⟨c1, db1, evs1, r1⟩
        cases r1 with
        | error e => exact Or.inl ⟨e, by simp [get_calander_info, hhit, hrd]⟩
        | ok dayv =>
          rcases hrh : refillHour c1 db1 (dateStr year month day) env
              (SQLiteDB.get_hour_calendar db (dateStr year month day)) with ⟨c2, db2, evs2, r2⟩
          cases r2 with
          | error e => exact Or.inl ⟨e, by simp [get_calander_info, hhit, hrd, hrh]⟩
          | ok hourv => exact Or.inr ⟨dayv, hourv, by simp [get_calander_info, hhit, hrd, hrh]⟩
  · intro db year month day env dfields u hdisc hapi h200d hday
    have hens := ensure_ip_fresh_ok dfields u hapi h200d
    simp [get_calander_info, hdisc, hday, CalendarAPI.get_day_calendar, hens]
  · intro db year month day env dfields u rd rh hdisc hapi h200d hip hday h200day hhour h200hour
    have hfd := get_day_fresh_ok dfields u rd hapi h200d h200day
    have hfh := get_hour_cached_ok (stripUrl u) hip (some (JVal.jobj dfields)) rh h200hour
    rcases hs1 : SQLiteDB.save_day_calendar db (dateStr year month day) (JVal.jobj rd)
        env.dayNow env.daySaveFail with ⟨db1, b1⟩
    rcases hs2 : SQLiteDB.save_hour_calendar db1 (dateStr year month day) (JVal.jobj rh)
        env.hourNow env.hourSaveFail with ⟨db2, b2⟩
    simp [get_calander_info, hdisc, hday, hhour, hfd, hfh, hs1, hs2]

/-- Witness for C1 amended: with both saves failing the call still returns
the complete pair (third conjunct applied at the failing-save environment). -/
theorem C1_amended_error_policy_witness :
    (get_calander_info emptyDB 2025 1 2 true failSaveEnv).2.2 =
      Except.ok (combined dayRec hourRec) :=
  C1_amended_error_policy.2.2 emptyDB 2025 1 2 failSaveEnv discFields
    "http://1.2.3.4/" dayFields hourFields rfl rfl rfl (by decide) rfl rfl rfl rfl

/-- C6: on a partial cache with `forceRefresh = false`, only the missing
dimension is fetched and written; the present dimension's stored record is
returned unchanged and its table untouched.  First conjunct: only the hour
row exists — one day fetch, no hour fetch, hour table as-is.  Second
conjunct: only the day row exists — one hour fetch, no day fetch, day table
as-is. -/
theorem C6_partial_cache_refill :
    (∀ (db : DB) (year month day : Nat) (env : Env)
        (dfields : List (String × JVal)) (u : String) (rd : List (String × JVal))
        (hv : JVal) (ct ut : String),
      env.discovery = some (JVal.jobj dfields) →
      lookupJ dfields "api" = some (JVal.jstr u) →
      isCode200 dfields = true →
      env.dayResp = some (JVal.jobj rd) →
      isCode200 rd = true →
      env.daySaveFail = none →
      lookupRow db.day_calendar (dateStr year month day) = none →
      lookupRow db.hour_calendar (dateStr year month day) = some ⟨Cell.enc hv, ct, ut⟩ →
      truthy hv = true →
      (get_calander_info db year month day false env).2.1 =
        [Event.readDay, Event.readHour, Event.discoveryQuery,
          Event.fetchDay, Event.saveDay] ∧
      (get_calander_info db year month day false env).2.2 =
        Except.ok (combined (JVal.jobj rd) hv) ∧
      (get_calander_info db year month day false env).1.hour_calendar =
        db.hour_calendar) ∧
    (∀ (db : DB) (year month day : Nat) (env : Env)
        (dfields : List (String × JVal)) (u : String) (rh : List (String × JVal))
        (dv : JVal) (ct ut : String),
      env.discovery = some (JVal.jobj dfields) →
      lookupJ dfields "api" = some (JVal.jstr u) →
      isCode200 dfields = true →
      env.hourResp = some (JVal.jobj rh) →
      isCode200 rh = true →
      env.hourSaveFail = none →
      lookupRow db.day_calendar (dateStr year month day) = some ⟨Cell.enc dv, ct, ut⟩ →
      lookupRow db.hour_calendar (dateStr year month day) = none →
      truthy dv = true →
      (get_calander_info db year month day false env).2.1 =
        [Event.readDay, Event.readHour, Event.discoveryQuery,
          Event.fetchHour, Event.saveHour] ∧
      (get_calander_info db year month day false env).2.2 =
        Except.ok (combined dv (JVal.jobj rh)) ∧
      (get_calander_info db year month day false env).1.day_calendar =
        db.day_calendar) := by
  constructor
  · intro db year month day env dfields u rd hv ct ut
    intro hdisc hapi h200d hday h200day hsd hdayrow hhourrow htv
    have hd0 : SQLiteDB.get_day_calendar db (dateStr year month day) = none := by
      simp [SQLiteDB.get_day_calendar, hdayrow]
    have hh0 : SQLiteDB.get_hour_calendar db (dateStr year month day) = some hv := by
      simp [SQLiteDB.get_hour_calendar, hhourrow]
    have hrd := refillDay_miss_fresh_ok db (dateStr year month day) env none dfields u rd
      rfl hdisc hapi h200d hday h200day hsd
    have hrh := refillHour_hit ⟨some (stripUrl u)⟩
      (SQLiteDB.save_day_calendar db (dateStr year month day) (JVal.jobj rd)
        env.dayNow none).1 (dateStr year month day) env hv htv
    have hcall : get_calander_info db year month day false env =
        ((SQLiteDB.save_day_calendar db (dateStr year month day) (JVal.jobj rd)
            env.dayNow none).1,
          [Event.readDay, Event.readHour, Event.discoveryQuery,
            Event.fetchDay, Event.saveDay],
          Except.ok (combined (JVal.jobj rd) hv)) := by
      simp [get_calander_info, hd0, hh0, pyTruthy, hrd, hrh]
    refine ⟨by simp [hcall], by simp [hcall], ?_⟩
    rw [hcall]
    simp [SQLiteDB.save_day_calendar]
  · intro db year month day env dfields u rh dv ct ut
    intro hdisc hapi h200d hhour h200hour hsh hdayrow hhourrow htv
    have hd0 : SQLiteDB.get_day_calendar db (dateStr year month day) = some dv := by
      simp [SQLiteDB.get_day_calendar, hdayrow]
    have hh0 : SQLiteDB.get_hour_calendar db (dateStr year month day) = none := by
      simp [SQLiteDB.get_hour_calendar, hhourrow]
    have hrd := refillDay_hit mkClient db (dateStr year month day) env dv htv
    have hrh := refillHour_miss_fresh_ok db (dateStr year month day) env none dfields u rh
      rfl hdisc hapi h200d hhour h200hour hsh
    have hcall : get_calander_info db year month day false env =
        ((SQLiteDB.save_hour_calendar db (dateStr year month day) (JVal.jobj rh)
            env.hourNow none).1,
          [Event.readDay, Event.readHour, Event.discoveryQuery,
            Event.fetchHour, Event.saveHour],
          Except.ok (combined dv (JVal.jobj rh))) := by
      simp [get_calander_info, hd0, hh0, pyTruthy, htv, hrd, hrh]
    refine ⟨by simp [hcall], by simp [hcall], ?_⟩
    rw [hcall]
    simp [SQLiteDB.save_hour_calendar]

/-- Witness for C6 at concrete partial caches (both directions). -/
theorem C6_partial_cache_refill_witness :
    ((get_calander_info dbHourOnly 2025 1 1 false goodEnv).2.2 =
        Except.ok (combined dayRec hourRec) ∧
      (get_calander_info dbHourOnly 2025 1 1 false goodEnv).1.hour_calendar =
        dbHourOnly.hour_calendar) ∧
    ((get_calander_info dbDayOnly 2025 1 1 false goodEnv).2.2 =
        Except.ok (combined dayRec hourRec) ∧
      (get_calander_info dbDayOnly 2025 1 1 false goodEnv).1.day_calendar =
        dbDayOnly.day_calendar) :=
  ⟨⟨(C6_partial_cache_refill.1 dbHourOnly 2025 1 1 goodEnv discFields "http://1.2.3.4/"
        dayFields hourRec "T0" "T0" rfl rfl rfl rfl rfl rfl rfl rfl (by decide)).2.1,
    (C6_partial_cache_refill.1 dbHourOnly 2025 1 1 goodEnv discFields "http://1.2.3.4/"
        dayFields hourRec "T0" "T0" rfl rfl rfl rfl rfl rfl rfl rfl (by decide)).2.2⟩,
   ⟨(C6_partial_cache_refill.2 dbDayOnly 2025 1 1 goodEnv discFields "http://1.2.3.4/"
        hourFields dayRec "T0" "T0" rfl rfl rfl rfl rfl rfl rfl rfl (by decide)).2.1,
    (C6_partial_cache_refill.2 dbDayOnly 2025 1 1 goodEnv discFields "http://1.2.3.4/"
        hourFields dayRec "T0" "T0" rfl rfl rfl rfl rfl rfl rfl rfl (by decide)).2.2⟩⟩

/-- C10: a cached row whose `data` column is empty (or NULL) makes `get`
return `None`; a row decoding to the empty mapping is returned by `get` but
is falsy, so the orchestrator treats either as a miss: it fetches the day
record afresh and overwrites the row (preserving `create_time`), returning
the fetched payload rather than the stored one. -/
theorem C10_empty_payload_is_miss :
    (∀ (db : DB) (date ct ut : String),
      lookupRow db.day_calendar date = some ⟨Cell.empty, ct, ut⟩ →
      SQLiteDB.get_day_calendar db date = none) ∧
    (∀ (db : DB) (date ct ut : String),
      lookupRow db.day_calendar date = some ⟨Cell.null, ct, ut⟩ →
      SQLiteDB.get_day_calendar db date = none) ∧
    (∀ (db : DB) (date ct ut : String),
      lookupRow db.day_calendar date = some ⟨Cell.enc (JVal.jobj []), ct, ut⟩ →
      SQLiteDB.get_day_calendar db date = some (JVal.jobj []) ∧
        pyTruthy (SQLiteDB.get_day_calendar db date) = false) ∧
    (∀ (db : DB) (year month day : Nat) (env : Env)
        (dfields : List (String × JVal)) (u : String) (rd : List (String × JVal))
        (hv : JVal) (ct ut : String),
      env.discovery = some (JVal.jobj dfields) →
      lookupJ dfields "api" = some (JVal.jstr u) →
      isCode200 dfields = true →
      env.dayResp = some (JVal.jobj rd) →
      isCode200 rd = true →
      env.daySaveFail = none →
      lookupRow db.day_calendar (dateStr year month day) =
        some ⟨Cell.enc (JVal.jobj []), ct, ut⟩ →
      lookupRow db.hour_calendar (dateStr year month day) = some ⟨Cell.enc hv, ct, ut⟩ →
      truthy hv = true →
      (get_calander_info db year month day false env).2.1 =
        [Event.readDay, Event.readHour, Event.discoveryQuery,
          Event.fetchDay, Event.saveDay] ∧
      (get_calander_info db year month day false env).2.2 =
        Except.ok (combined (JVal.jobj rd) hv) ∧
      lookupRow (get_calander_info db year month day false env).1.day_calendar
          (dateStr year month day) =
        some ⟨Cell.enc (JVal.jobj rd), ct, env.dayNow⟩) := by
  refine ⟨?_, ?_, ?_, ?_⟩
  · intro db date ct ut h
    simp [SQLiteDB.get_day_calendar, h]
  · intro db date ct ut h
    simp [SQLiteDB.get_day_calendar, h]
  · intro db date ct ut h
    simp [SQLiteDB.get_day_calendar, h, pyTruthy, truthy]
  · intro db year month day env dfields u rd hv ct ut
    intro hdisc hapi h200d hday h200day hsd hdayrow hhourrow htv
    have hd0 : SQLiteDB.get_day_calendar db (dateStr year month day) =
        some (JVal.jobj []) := by
      simp [SQLiteDB.get_day_calendar, hdayrow]
    have hh0 : SQLiteDB.get_hour_calendar db (dateStr year month day) = some hv := by
      simp [SQLiteDB.get_hour_calendar, hhourrow]
    have hrd := refillDay_miss_fresh_ok db (dateStr year month day) env
      (some (JVal.jobj [])) dfields u rd rfl hdisc hapi h200d hday h200day hsd
    have hrh := refillHour_hit ⟨some (stripUrl u)⟩
      (SQLiteDB.save_day_calendar db (dateStr year month day) (JVal.jobj rd)
        env.dayNow none).1 (dateStr year month day) env hv htv
    have hcall : get_calander_info db year month day false env =
        ((SQLiteDB.save_day_calendar db (dateStr year month day) (JVal.jobj rd)
            env.dayNow none).1,
          [Event.readDay, Event.readHour, Event.discoveryQuery,
            Event.fetchDay, Event.saveDay],
          Except.ok (combined (JVal.jobj rd) hv)) := by
      simp [get_calander_info, hd0, hh0, pyTruthy, truthy, hrd, hrh]
    refine ⟨by simp [hcall], by simp [hcall], ?_⟩
    rw [hcall]
    simp [SQLiteDB.save_day_calendar, lookupRow_upsert_self, hdayrow]

/-- Witness for C10: a concrete cache whose day row decodes to the empty
mapping triggers a fresh day fetch and is overwritten with the fetched
payload. -/
theorem C10_empty_payload_is_miss_witness :
    SQLiteDB.get_day_calendar ⟨[("2025-01-01", ⟨Cell.empty, "T0", "T0"⟩)], []⟩
        "2025-01-01" = none ∧
    (get_calander_info dbEmptyDayRow 2025 1 1 false goodEnv).2.2 =
      Except.ok (combined dayRec hourRec) ∧
    lookupRow (get_calander_info dbEmptyDayRow 2025 1 1 false goodEnv).1.day_calendar
        (dateStr 2025 1 1) =
      some ⟨Cell.enc dayRec, "T0", goodEnv.dayNow⟩ :=
  ⟨C10_empty_payload_is_miss.1 _ "2025-01-01" "T0" "T0" rfl,
   (C10_empty_payload_is_miss.2.2.2 dbEmptyDayRow 2025 1 1 goodEnv discFields
      "http://1.2.3.4/" dayFields hourRec "T0" "T0" rfl rfl rfl rfl rfl rfl rfl rfl
      (by decide)).2.1,
   (C10_empty_payload_is_miss.2.2.2 dbEmptyDayRow 2025 1 1 goodEnv discFields
      "http://1.2.3.4/" dayFields hourRec "T0" "T0" rfl rfl rfl rfl rfl rfl rfl rfl
      (by decide)).2.2⟩

/-- C5: starting from any cache state, two successive non-forced calls under
a well-behaved environment perform at most one day fetch and at most one hour
fetch in total; the second call is a pure cache hit (its trace is just the
two reads, so no network call at all — the second environment is arbitrary),
and both calls return the same payload (equal values, hence byte-identical
serializations). -/
theorem C5_repeat_non_forced (db : DB) (year month day : Nat) (env env2 : Env)
    (dfields : List (String × JVal)) (u : String) (rd rh : List (String × JVal))
    (hdisc : env.discovery = some (JVal.jobj dfields))
    (hapi : lookupJ dfields "api" = some (JVal.jstr u))
    (h200d : isCode200 dfields = true)
    (hip : stripUrl u ≠ "")
    (hday : env.dayResp = some (JVal.jobj rd))
    (h200day : isCode200 rd = true)
    (hhour : env.hourResp = some (JVal.jobj rh))
    (h200hour : isCode200 rh = true)
    (hsd : env.daySaveFail = none)
    (hsh : env.hourSaveFail = none) :
    ((get_calander_info db year month day false env).2.1 ++
        (get_calander_info (get_calander_info db year month day false env).1
          year month day false env2).2.1).count Event.fetchDay ≤ 1 ∧
    ((get_calander_info db year month day false env).2.1 ++
        (get_calander_info (get_calander_info db year month day false env).1
          year month day false env2).2.1).count Event.fetchHour ≤ 1 ∧
    (get_calander_info (get_calander_info db year month day false env).1
        year month day false env2).2.1 = [Event.readDay, Event.readHour] ∧
    ∃ out,
      (get_calander_info db year month day false env).2.2 = Except.ok out ∧
      (get_calander_info (get_calander_info db year month day false env).1
          year month day false env2).2.2 = Except.ok out := by
  have htrd : truthy (JVal.jobj rd) = true := truthy_of_isCode200 rd h200day
  have htrh : truthy (JVal.jobj rh) = true := truthy_of_isCode200 rh h200hour
  cases hpd : pyTruthy (SQLiteDB.get_day_calendar db (dateStr year month day)) with
  | true =>
    obtain ⟨dval, hdv, htd⟩ := pyTruthy_some _ hpd
    cases hph : pyTruthy (SQLiteDB.get_hour_calendar db (dateStr year month day)) with
    | true =>
      obtain ⟨hval, hhv, hth⟩ := pyTruthy_some _ hph
      have hcall1 := hit_call db year month day env hpd hph
      simp only [hdv, hhv, Option.getD_some] at hcall1
      have hdb1 : (get_calander_info db year month day false env).1 = db := by
        rw [hcall1]
      have hcall2 := hit_call db year month day env2 hpd hph
      simp only [hdv, hhv, Option.getD_some] at hcall2
      rw [hdb1, hcall1, hcall2]
      refine ⟨?_, ?_, rfl, ⟨combined dval hval, rfl, rfl⟩⟩
      · show ([Event.readDay, Event.readHour] ++
            [Event.readDay, Event.readHour]).count Event.fetchDay ≤ 1
        decide
      · show ([Event.readDay, Event.readHour] ++
            [Event.readDay, Event.readHour]).count Event.fetchHour ≤ 1
        decide
    | false =>
      have hrd := refillDay_hit mkClient db (dateStr year month day) env dval htd
      have hrh := refillHour_miss_fresh_ok db (dateStr year month day) env
        (SQLiteDB.get_hour_calendar db (dateStr year month day)) dfields u rh hph
        hdisc hapi h200d hhour h200hour hsh
      have hcall1 : get_calander_info db year month day false env =
          ((SQLiteDB.save_hour_calendar db (dateStr year month day) (JVal.jobj rh)
              env.hourNow none).1,
            [Event.readDay, Event.readHour, Event.discoveryQuery,
              Event.fetchHour, Event.saveHour],
            Except.ok (combined dval (JVal.jobj rh))) := by
        have hpd' : pyTruthy (some dval) = true := by rw [← hdv]; exact hpd
        simp [get_calander_info, hdv, hpd', hph, hrd, hrh]
      have hdb1 : (get_calander_info db year month day false env).1 =
          (SQLiteDB.save_hour_calendar db (dateStr year month day) (JVal.jobj rh)
            env.hourNow none).1 := by
        rw [hcall1]
      have hgd1 : SQLiteDB.get_day_calendar
          ((SQLiteDB.save_hour_calendar db (dateStr year month day) (JVal.jobj rh)
            env.hourNow none).1) (dateStr year month day) = some dval := by
        rw [get_day_after_save_hour]
        exact hdv
      have hgh1 : SQLiteDB.get_hour_calendar
          ((SQLiteDB.save_hour_calendar db (dateStr year month day) (JVal.jobj rh)
            env.hourNow none).1) (dateStr year month day) = some (JVal.jobj rh) :=
        get_hour_after_save _ _ _ _
      have hcall2 := hit_call
        ((SQLiteDB.save_hour_calendar db (dateStr year month day) (JVal.jobj rh)
          env.hourNow none).1) year month day env2
        (by simp [hgd1, pyTruthy, htd]) (by simp [hgh1, pyTruthy, htrh])
      simp only [hgd1, hgh1, Option.getD_some] at hcall2
      rw [hdb1, hcall1, hcall2]
      refine ⟨?_, ?_, rfl, ⟨combined dval (JVal.jobj rh), rfl, rfl⟩⟩
      · show ([Event.readDay, Event.readHour, Event.discoveryQuery,
            Event.fetchHour, Event.saveHour] ++
            [Event.readDay, Event.readHour]).count Event.fetchDay ≤ 1
        decide
      · show ([Event.readDay, Event.readHour, Event.discoveryQuery,
            Event.fetchHour, Event.saveHour] ++
            [Event.readDay, Event.readHour]).count Event.fetchHour ≤ 1
        decide
  | false =>
    have hrd := refillDay_miss_fresh_ok db (dateStr year month day) env
      (SQLiteDB.get_day_calendar db (dateStr year month day)) dfields u rd hpd
      hdisc hapi h200d hday h200day hsd
    cases hph : pyTruthy (SQLiteDB.get_hour_calendar db (dateStr year month day)) with
    | true =>
      obtain ⟨hval, hhv, hth⟩ := pyTruthy_some _ hph
      have hrh := refillHour_hit ⟨some (stripUrl u)⟩
        ((SQLiteDB.save_day_calendar db (dateStr year month day) (JVal.jobj rd)
          env.dayNow none).1) (dateStr year month day) env hval hth
      have hcall1 : get_calander_info db year month day false env =
          ((SQLiteDB.save_day_calendar db (dateStr year month day) (JVal.jobj rd)
              env.dayNow none).1,
            [Event.readDay, Event.readHour, Event.discoveryQuery,
              Event.fetchDay, Event.saveDay],
            Except.ok (combined (JVal.jobj rd) hval)) := by
        have hph' : pyTruthy (some hval) = true := by rw [← hhv]; exact hph
        simp [get_calander_info, hpd, hhv, hph', hrd, hrh]
      have hdb1 : (get_calander_info db year month day false env).1 =
          (SQLiteDB.save_day_calendar db (dateStr year month day) (JVal.jobj rd)
            env.dayNow none).1 := by
        rw [hcall1]
      have hgd1 : SQLiteDB.get_day_calendar
          ((SQLiteDB.save_day_calendar db (dateStr year month day) (JVal.jobj rd)
            env.dayNow none).1) (dateStr year month day) = some (JVal.jobj rd) :=
        get_day_after_save _ _ _ _
      have hgh1 : SQLiteDB.get_hour_calendar
          ((SQLiteDB.save_day_calendar db (dateStr year month day) (JVal.jobj rd)
            env.dayNow none).1) (dateStr year month day) = some hval := by
        rw [get_hour_after_save_day]
        exact hhv
      have hcall2 := hit_call
        ((SQLiteDB.save_day_calendar db (dateStr year month day) (JVal.jobj rd)
          env.dayNow none).1) year month day env2
        (by simp [hgd1, pyTruthy, htrd]) (by simp [hgh1, pyTruthy, hth])
      simp only [hgd1, hgh1, Option.getD_some] at hcall2
      rw [hdb1, hcall1, hcall2]
      refine ⟨?_, ?_, rfl, ⟨combined (JVal.jobj rd) hval, rfl, rfl⟩⟩
      · show ([Event.readDay, Event.readHour, Event.discoveryQuery,
            Event.fetchDay, Event.saveDay] ++
            [Event.readDay, Event.readHour]).count Event.fetchDay ≤ 1
        decide
      · show ([Event.readDay, Event.readHour, Event.discoveryQuery,
            Event.fetchDay, Event.saveDay] ++
            [Event.readDay, Event.readHour]).count Event.fetchHour ≤ 1
        decide
    | false =>
      have hrh := refillHour_miss_cached_ok
        ((SQLiteDB.save_day_calendar db (dateStr year month day) (JVal.jobj rd)
          env.dayNow none).1) (dateStr year month day) env
        (SQLiteDB.get_hour_calendar db (dateStr year month day)) (stripUrl u) rh hph
        hip hhour h200hour hsh
      have hcall1 : get_calander_info db year month day false env =
          ((SQLiteDB.save_hour_calendar
              ((SQLiteDB.save_day_calendar db (dateStr year month day) (JVal.jobj rd)
                env.dayNow none).1)
              (dateStr year month day) (JVal.jobj rh) env.hourNow none).1,
            [Event.readDay, Event.readHour, Event.discoveryQuery, Event.fetchDay,
              Event.saveDay, Event.fetchHour, Event.saveHour],
            Except.ok (combined (JVal.jobj rd) (JVal.jobj rh))) := by
        simp [get_calander_info, hpd, hph, hrd, hrh]
      have hdb1 : (get_calander_info db year month day false env).1 =
          (SQLiteDB.save_hour_calendar
            ((SQLiteDB.save_day_calendar db (dateStr year month day) (JVal.jobj rd)
              env.dayNow none).1)
            (dateStr year month day) (JVal.jobj rh) env.hourNow none).1 := by
        rw [hcall1]
      have hgd1 : SQLiteDB.get_day_calendar
          ((SQLiteDB.save_hour_calendar
            ((SQLiteDB.save_day_calendar db (dateStr year month day) (JVal.jobj rd)
              env.dayNow none).1)
            (dateStr year month day) (JVal.jobj rh) env.hourNow none).1)
          (dateStr year month day) = some (JVal.jobj rd) := by
        rw [get_day_after_save_hour]
        exact get_day_after_save _ _ _ _
      have hgh1 : SQLiteDB.get_hour_calendar
          ((SQLiteDB.save_hour_calendar
            ((SQLiteDB.save_day_calendar db (dateStr year month day) (JVal.jobj rd)
              env.dayNow none).1)
            (dateStr year month day) (JVal.jobj rh) env.hourNow none).1)
          (dateStr year month day) = some (JVal.jobj rh) :=
        get_hour_after_save _ _ _ _
      have hcall2 := hit_call
        ((SQLiteDB.save_hour_calendar
          ((SQLiteDB.save_day_calendar db (dateStr year month day) (JVal.jobj rd)
            env.dayNow none).1)
          (dateStr year month day) (JVal.jobj rh) env.hourNow none).1)
        year month day env2
        (by simp [hgd1, pyTruthy, htrd]) (by simp [hgh1, pyTruthy, htrh])
      simp only [hgd1, hgh1, Option.getD_some] at hcall2
      rw [hdb1, hcall1, hcall2]
      refine ⟨?_, ?_, rfl, ⟨combined (JVal.jobj rd) (JVal.jobj rh), rfl, rfl⟩⟩
      · show ([Event.readDay, Event.readHour, Event.discoveryQuery, Event.fetchDay,
            Event.saveDay, Event.fetchHour, Event.saveHour] ++
            [Event.readDay, Event.readHour]).count Event.fetchDay ≤ 1
        decide
      · show ([Event.readDay, Event.readHour, Event.discoveryQuery, Event.fetchDay,
            Event.saveDay, Event.fetchHour, Event.saveHour] ++
            [Event.readDay, Event.readHour]).count Event.fetchHour ≤ 1
        decide

/-- Witness for C5 from the empty cache with the sample environment: the
second call's trace is the two reads and both calls return the same pair. -/
theorem C5_repeat_non_forced_witness :
    (get_calander_info (get_calander_info emptyDB 2025 1 1 false goodEnv).1
        2025 1 1 false failSaveEnv).2.1 = [Event.readDay, Event.readHour] ∧
    ∃ out,
      (get_calander_info emptyDB 2025 1 1 false goodEnv).2.2 = Except.ok out ∧
      (get_calander_info (get_calander_info emptyDB 2025 1 1 false goodEnv).1
          2025 1 1 false failSaveEnv).2.2 = Except.ok out :=
  ⟨(C5_repeat_non_forced emptyDB 2025 1 1 goodEnv failSaveEnv discFields
      "http://1.2.3.4/" dayFields hourFields rfl rfl rfl (by decide) rfl rfl rfl rfl
      rfl rfl).2.2.1,
   (C5_repeat_non_forced emptyDB 2025 1 1 goodEnv failSaveEnv discFields
      "http://1.2.3.4/" dayFields hourFields rfl rfl rfl (by decide) rfl rfl rfl rfl
      rfl rfl).2.2.2⟩

end Cardcaptor
